import Mathlib

/-!
Verification development for the `computer-networks` chat system
(`src/protocol.py`, `src/chat_server.py`).

The Python code is shallowly embedded: JSON documents are an inductive
`Json` type, the protocol codec (`Message.to_dict`, `Message.from_dict`,
`Protocol.encode`, `Protocol.decode`) and the command handlers of the server
(`ChatServer._handle_nick` / `_handle_join` / `_handle_leave` /
`_handle_msg` / `_handle_list` / `_broadcast_to_channel` /
`_disconnect_client`) become pure Lean functions over an explicit
`ServerState`.

Modelling conventions, stated once here:
* `json.dumps` / `json.loads` (Python standard library, not part of this
  repository) are treated as an exact inverse pair between a JSON
  document and its newline-terminated wire line, so the codec is modelled
  at the level of JSON documents (`Json`).  JSON numbers are modelled as
  integers; no claim in scope depends on float arithmetic, and the
  `time.time()` timestamp is threaded through as an opaque `Json`
  parameter `now`.
* Python `dict`s (string-keyed, insertion-ordered, unique keys with
  last-wins on JSON parse) are association lists; `aget`, `aset`, `adel`
  mirror `d[k]`, `d[k] = v`, `del d[k]`, and `jlookup` mirrors lookup in
  a dict produced by `json.loads` (last occurrence of a key wins).
  Python `set`s are duplicate-free lists; `list(s)[0]` becomes `head?`.
* `str.strip` and `str.isalnum` are modelled over the ASCII range
  (the Python versions are Unicode-aware); every string any claim touches is ASCII.
* The single `threading.Lock` (`self.client_lock`) is non-reentrant.
  Each `with self.client_lock:` block is modelled explicitly: every
  socket write (`_send_message`) is recorded as an `Ev.send` event
  tagged with whether the lock is held at that moment, and an attempt to
  acquire the lock while it is already held by the same thread yields
  the `Outcome.deadlock` outcome, exactly as the real lock would block
  forever.  An uncaught Python exception (`KeyError` on a missing
  registry entry, `AttributeError` on a non-string payload field)
  becomes `Outcome.pyError`.
-/

/-- JSON documents, as produced by `json.loads` (numbers restricted to
integers; see the header note). -/
inductive Json where
  | null : Json
  | bool (b : Bool) : Json
  | num (n : Int) : Json
  | str (s : String) : Json
  | arr (xs : List Json) : Json
  | obj (kvs : List (String × Json)) : Json

/-- Python truthiness of a JSON value: `None`, `False`, `0`, `""`, `[]`
and the empty dict are falsy. -/
def Json.isFalsy : Json → Bool
  | .null => true
  | .bool b => !b
  | .num n => n == 0
  | .str s => s == ""
  | .arr xs => xs.isEmpty
  | .obj kvs => kvs.isEmpty

/-- Key lookup in a parsed JSON object.  `json.loads` builds a Python
dict in which a repeated key keeps its last occurrence, so the scan
prefers later entries. -/
def jlookup : List (String × Json) → String → Option Json
  | [], _ => none
  | (k, v) :: rest, key =>
      match jlookup rest key with
      | some r => some r
      | none => if key = k then some v else none

/-- The `MessageType` enum of `protocol.py`. -/
inductive MessageType where
  | command : MessageType
  | response : MessageType
  | event : MessageType
  deriving DecidableEq

/-- Value strings of the `MessageType` str-enum. -/
def MessageType.value : MessageType → String
  | .command => "command"
  | .response => "response"
  | .event => "event"

/-- Model of the enum constructor call `MessageType(x)`: succeeds exactly on the
three member strings, raises `ValueError` (here `none`) otherwise. -/
def MessageType.ofJson : Json → Option MessageType
  | .str s =>
      if s = "command" then some .command
      else if s = "response" then some .response
      else if s = "event" then some .event
      else none
  | _ => none

/-- Model of `protocol.Message`.  The field `name` is kept as a raw `Json` value because
`Message.from_dict` accepts any JSON value under the `"name"` key; every
catalog constructor instantiates it with a string. -/
structure Message where
  type : MessageType
  name : Json
  data : Json

/-- Model of `Message.to_dict`. -/
def Message.to_dict (m : Message) : Json :=
  .obj [("type", .str m.type.value), ("name", m.name), ("data", m.data)]

/-- Model of the data-lookup step of from_dict: the payload under the
data key, where a missing or Python-falsy payload collapses to the
empty dict. -/
def dataField (kvs : List (String × Json)) : Json :=
  match jlookup kvs "data" with
  | none => .obj []
  | some d => if d.isFalsy then .obj [] else d

/-- Model of `Message.from_dict`: reads the type field through the
`MessageType` enum, reads the name field, and defaults the data field
via `dataField`; any `KeyError` / `ValueError` / `TypeError` (including
subscripting a non-dict) is re-raised as `ValueError`. -/
def Message.from_dict (raw : Json) : Except String Message :=
  match raw with
  | .obj kvs =>
      match jlookup kvs "type" with
      | none => .error "Invalid message object"
      | some tv =>
          match MessageType.ofJson tv with
          | none => .error "Invalid message object"
          | some t =>
              match jlookup kvs "name" with
              | none => .error "Invalid message object"
              | some nv => .ok { type := t, name := nv, data := dataField kvs }
  | _ => .error "Invalid message object"

/-- Model of `Protocol.encode`: the JSON dump of `Message.to_dict`
plus a newline terminator, modelled at the document level (the
dump/parse framing is exact, see the header note). -/
def Protocol.encode (m : Message) : Json :=
  m.to_dict

/-- Model of `Protocol.decode`: parse one wire line (terminator stripped) and run
`Message.from_dict`; `json.loads` is the exact document framing. -/
def Protocol.decode (line : Json) : Except String Message :=
  Message.from_dict line

/-- Model of `Protocol.cmd_nick`. -/
def Protocol.cmd_nick (nickname : String) : Message :=
  { type := .command, name := .str "nick", data := .obj [("nickname", .str nickname)] }

/-- Model of `Protocol.cmd_join`. -/
def Protocol.cmd_join (channel : String) : Message :=
  { type := .command, name := .str "join", data := .obj [("channel", .str channel)] }

/-- Model of `Protocol.cmd_msg` with an explicit channel. -/
def Protocol.cmd_msg (text channel : String) : Message :=
  { type := .command, name := .str "msg",
    data := .obj [("text", .str text), ("channel", .str channel)] }

/-- Model of `Protocol.cmd_list`. -/
def Protocol.cmd_list : Message :=
  { type := .command, name := .str "list", data := .obj [] }

/-- Model of `Protocol.resp_ok`: a response payload carrying the ok
status first, followed by the extra fields. -/
def respOk (commandName : String) (data : List (String × Json)) : Message :=
  { type := .response, name := .str commandName,
    data := .obj (("status", .str "ok") :: data) }

/-- Model of `Protocol.resp_error` as the server calls it (no extra
data). -/
def respError (commandName errMsg : String) : Message :=
  { type := .response, name := .str commandName,
    data := .obj [("status", .str "error"), ("error", .str errMsg)] }

/-- Model of `Protocol.evt_message` with the `time.time()` value
threaded in as `ts`. -/
def evtMessage (channel sender text : String) (ts : Json) : Message :=
  { type := .event, name := .str "message",
    data := .obj [("channel", .str channel), ("from", .str sender),
                  ("text", .str text), ("timestamp", ts)] }

/-- Model of `Protocol.evt_user_joined`. -/
def evtUserJoined (channel username : String) : Message :=
  { type := .event, name := .str "user_joined",
    data := .obj [("channel", .str channel), ("user", .str username)] }

/-- Model of `Protocol.evt_user_left`. -/
def evtUserLeft (channel username : String) : Message :=
  { type := .event, name := .str "user_left",
    data := .obj [("channel", .str channel), ("user", .str username)] }

/-! ## Server state (`ChatServer`) -/

/-- A client socket, identified opaquely. -/
abbrev Sock := Nat

/-- One entry of `self.clients`:
`{"nickname": str, "channels": set(), "address": address}` (the address
is reduced to the remote port, its only consulted component). -/
structure ClientInfo where
  nickname : String
  channels : List String
  address : Nat
  deriving DecidableEq

/-- The registries guarded by `self.client_lock`:
`self.clients : dict` and `self.channels : dict`. -/
structure ServerState where
  clients : List (Sock × ClientInfo)
  channels : List (String × List Sock)
  deriving DecidableEq

/-- Python dict read `d[k]` / `k in d` (keys are unique, first hit). -/
def aget {k v : Type} [DecidableEq k] : List (k × v) → k → Option v
  | [], _ => none
  | (k', v') :: rest, key => if key = k' then some v' else aget rest key

/-- Python dict write `d[k] = v`: update in place, append if new. -/
def aset {k v : Type} [DecidableEq k] : List (k × v) → k → v → List (k × v)
  | [], key, val => [(key, val)]
  | (k', v') :: rest, key, val =>
      if key = k' then (key, val) :: rest else (k', v') :: aset rest key val

/-- Python dict delete `del d[k]`. -/
def adel {k v : Type} [DecidableEq k] : List (k × v) → k → List (k × v)
  | [], _ => []
  | (k', v') :: rest, key => if key = k' then rest else (k', v') :: adel rest key

/-- Python `set.add` on a duplicate-free list. -/
def saddSet {α : Type} [DecidableEq α] (l : List α) (a : α) : List α :=
  if a ∈ l then l else l ++ [a]

/-- Python `set.discard` (and `set.remove` at its guarded call sites). -/
def sdiscard {α : Type} [DecidableEq α] (l : List α) (a : α) : List α :=
  l.filter (fun x => x ≠ a)

/-- Model of a data-field read followed by use as a string: `none`
stands for the `AttributeError` Python raises when the value under the
key is not a string. -/
def getStrD (data : List (String × Json)) (key dflt : String) : Option String :=
  match jlookup data key with
  | none => some dflt
  | some (.str s) => some s
  | some _ => none

/-- Python ASCII whitespace as stripped by `str.strip()`. -/
def pyIsSpace (c : Char) : Bool :=
  c = ' ' || c = '\t' || c = '\n' || c = '\x0b' || c = '\x0c' || c = '\r'

/-- Model of `str.strip` (ASCII range, see the header note). -/
def pyStrip (s : String) : String :=
  String.mk (((s.data.dropWhile pyIsSpace).reverse.dropWhile pyIsSpace).reverse)

/-- Model of `str.startswith`. -/
def pyStartsWith (s pre : String) : Bool :=
  pre.data.isPrefixOf s.data

/-- Model of `str.isalnum` (ASCII range, see the header note):
nonempty and every character alphanumeric. -/
def pyIsAlnum (s : String) : Bool :=
  !s.data.isEmpty && s.data.all Char.isAlphanum

/-- Model of the replace call that removes every underscore from the
nickname. -/
def removeUnderscores (s : String) : String :=
  String.mk (s.data.filter (fun c => c ≠ '_'))

/-- One observable side effect: `_send_message(sock, m)` — a socket
write of the encoded message — tagged with whether `self.client_lock`
is held at the moment of the write. -/
inductive Ev where
  | send (sock : Sock) (m : Message) (lockHeld : Bool) : Ev

/-- Result of running one server operation: normal completion with the
new registries and the ordered writes performed; `deadlock` when the
thread blocks forever re-acquiring the non-reentrant lock it already
holds (state and writes completed up to that point); `pyError` when an
uncaught Python exception escapes the handler. -/
inductive Outcome where
  | ok (st : ServerState) (evs : List Ev) : Outcome
  | deadlock (st : ServerState) (evs : List Ev) : Outcome
  | pyError (st : ServerState) (evs : List Ev) : Outcome

/-- The writes performed by the body of `_broadcast_to_channel` once the
lock has been acquired: iterate the member set of the channel, skip
`exclude`, send inside the lock. -/
def broadcastSends (st : ServerState) (channel : String) (m : Message)
    (exclude : Option Sock) : List Ev :=
  match aget st.channels channel with
  | none => []
  | some members =>
      members.filterMap (fun s => if exclude = some s then none else some (.send s m true))

/-- Model of `ChatServer._broadcast_to_channel`.
The body opens `with self.client_lock:`; if the calling thread already
holds the lock the acquisition blocks forever (`none`). -/
def broadcastToChannel (st : ServerState) (lockHeld : Bool) (channel : String)
    (m : Message) (exclude : Option Sock) : Option (List Ev) :=
  if lockHeld then none
  else some (broadcastSends st channel m exclude)

/-- The duplicate check of `_handle_nick`: some *other* client already
has this nickname. -/
def nickTaken (st : ServerState) (sock : Sock) (nickname : String) : Bool :=
  st.clients.any (fun p => p.1 ≠ sock && p.2.nickname == nickname)

/-- Model of `ChatServer._handle_nick`. -/
def handleNick (st : ServerState) (sock : Sock) (data : List (String × Json)) : Outcome :=
  match getStrD data "nickname" "" with
  | none => .pyError st []
  | some raw =>
      let nickname := pyStrip raw
      if nickname = "" ∨ nickname.length > 20
          ∨ pyIsAlnum (removeUnderscores nickname) = false then
        .ok st [.send sock (respError "nick" "Invalid nickname format") false]
      else
        -- with self.client_lock:
        if nickTaken st sock nickname then
          .ok st [.send sock (respError "nick" "Nickname already in use") true]
        else
          match aget st.clients sock with
          | none => .pyError st []
          | some info =>
              let st' := { st with
                clients := aset st.clients sock { info with nickname := nickname } }
              .ok st' [.send sock (respOk "nick" [("nickname", .str nickname)]) false]

/-- Model of `ChatServer._handle_list`. -/
def handleList (st : ServerState) (sock : Sock) : Outcome :=
  let channels := st.channels.map (fun p => Json.obj
    [("name", .str p.1), ("users", .num (Int.ofNat p.2.length))])
  .ok st [.send sock (respOk "list" [("channels", .arr channels)]) false]

/-- Model of `ChatServer._handle_join`. -/
def handleJoin (st : ServerState) (sock : Sock) (data : List (String × Json)) : Outcome :=
  match getStrD data "channel" "" with
  | none => .pyError st []
  | some raw =>
      let channel := pyStrip raw
      if channel = "" ∨ pyStartsWith channel "#" = false ∨ channel.length < 2 then
        .ok st [.send sock (respError "join" "Invalid channel name") false]
      else
        -- with self.client_lock:
        let chans :=
          match aget st.channels channel with
          | none => aset st.channels channel []
          | some _ => st.channels
        let mem := (aget chans channel).getD []
        let chans' := aset chans channel (saddSet mem sock)
        match aget st.clients sock with
        | none => .pyError { st with channels := chans' } []
        | some info =>
            let st' : ServerState :=
              { clients := aset st.clients sock
                  { info with channels := saddSet info.channels channel },
                channels := chans' }
            .ok st'
              ([.send sock (respOk "join" [("channel", .str channel)]) false] ++
                broadcastSends st' channel (evtUserJoined channel info.nickname) (some sock))

/-- The membership branch of `_handle_leave` once the channel to leave
has been chosen: discard, delete-if-empty, respond, broadcast. -/
def leaveCore (st : ServerState) (sock : Sock) (info : ClientInfo) (ch : String) : Outcome :=
  if ch ∈ info.channels then
    match aget st.channels ch with
    | none => .pyError st []
    | some mem =>
        let mem' := sdiscard mem sock
        let chans' := if mem'.isEmpty then adel st.channels ch else aset st.channels ch mem'
        let st' : ServerState :=
          { clients := aset st.clients sock { info with channels := sdiscard info.channels ch },
            channels := chans' }
        .ok st'
          ([.send sock (respOk "leave" [("channel", .str ch)]) false] ++
            broadcastSends st' ch (evtUserLeft ch info.nickname) none)
  else
    .ok st [.send sock (respError "leave" "Not in that channel") true]

/-- Model of `ChatServer._handle_leave`. -/
def handleLeave (st : ServerState) (sock : Sock) (data : List (String × Json)) : Outcome :=
  let channel0 := jlookup data "channel"
  -- with self.client_lock:
  match aget st.clients sock with
  | none => .pyError st []
  | some info =>
      let chosen : Option Json :=
        match channel0 with
        | none => none
        | some v => if v.isFalsy then none else some v
      match chosen with
      | none =>
          match info.channels.head? with
          | some ch => leaveCore st sock info ch
          | none => .ok st [.send sock (respError "leave" "Not in any channel") true]
      | some (.str ch) => leaveCore st sock info ch
      | some _ => .ok st [.send sock (respError "leave" "Not in that channel") true]

/-- The broadcast step of `_handle_msg` once the channel is fixed:
no exclusion — the sender is a member and receives its own event. -/
def msgCore (st : ServerState) (ch nickname text : String) (now : Json) : Outcome :=
  .ok st (broadcastSends st ch (evtMessage ch nickname text now) none)

/-- Model of `ChatServer._handle_msg`; the parameter `now` is the `time.time()` value used for
the event timestamp. -/
def handleMsg (st : ServerState) (sock : Sock) (data : List (String × Json))
    (now : Json) : Outcome :=
  match getStrD data "text" "" with
  | none => .pyError st []
  | some rawText =>
      let text := pyStrip rawText
      let channel0 := jlookup data "channel"
      if text = "" then
        .ok st []
      else
        -- with self.client_lock:
        match aget st.clients sock with
        | none => .pyError st []
        | some info =>
            let chosen : Option Json :=
              match channel0 with
              | none => none
              | some v => if v.isFalsy then none else some v
            match chosen with
            | none =>
                match info.channels.head? with
                | some ch => msgCore st ch info.nickname text now
                | none => .ok st [.send sock (respError "msg" "Not in any channel") true]
            | some (.str ch) =>
                if ch ∈ info.channels then msgCore st ch info.nickname text now
                else .ok st [.send sock (respError "msg" "Not in that channel") true]
            | some _ => .ok st [.send sock (respError "msg" "Not in that channel") true]

/-- The per-channel unwind loop inside `_disconnect_client`, run with
`self.client_lock` already held: discard the socket from the channel,
then call `_broadcast_to_channel` — which tries to re-acquire the held
non-reentrant lock and therefore blocks forever.  The unreachable
continuation (delete-if-empty, next channel) is spelled out so the
intended control flow stays visible. -/
def discLoop (sock : Sock) (nickname : String) :
    List String → ServerState → List Ev → Outcome
  | [], st, acc => .ok { st with clients := adel st.clients sock } acc
  | ch :: rest, st, acc =>
      match aget st.channels ch with
      | none => discLoop sock nickname rest st acc
      | some mem =>
          let mem' := sdiscard mem sock
          let st' := { st with channels := aset st.channels ch mem' }
          match broadcastToChannel st' true ch (evtUserLeft ch nickname) none with
          | none => .deadlock st' acc
          | some evs =>
              let st'' :=
                if mem'.isEmpty then { st' with channels := adel st'.channels ch } else st'
              discLoop sock nickname rest st'' (acc ++ evs)

/-- Model of `ChatServer._disconnect_client`: the whole body runs inside
`with self.client_lock:`. -/
def disconnectClient (st : ServerState) (sock : Sock) : Outcome :=
  match aget st.clients sock with
  | none => .ok st []
  | some info => discLoop sock info.nickname info.channels st []

/-! ## Claim-side predicates and concrete fixtures -/

/-- Lock position of a recorded socket write. -/
def Ev.lockHeldOf : Ev → Bool
  | .send _ _ lh => lh

/-- The wire-shape condition of the decode claim: the parsed line is a
JSON object whose `type` field is one of the three message kinds and
whose `name` field is present. -/
def wireShapeOk (raw : Json) : Prop :=
  ∃ kvs, raw = Json.obj kvs ∧
    (jlookup kvs "type" = some (.str "command") ∨
     jlookup kvs "type" = some (.str "response") ∨
     jlookup kvs "type" = some (.str "event")) ∧
    (jlookup kvs "name").isSome = true

/-- The `data` field of the parsed line is absent or JSON `null`. -/
def dataDefaulted (raw : Json) : Prop :=
  ∀ kvs, raw = Json.obj kvs →
    (jlookup kvs "data" = none ∨ jlookup kvs "data" = some Json.null)

/-- Nickname validity in the (amended) claim's vocabulary: non-empty,
at most 20 characters, only letters/digits/underscores, and at least one
letter or digit. -/
def nickFormatOk (s : String) : Prop :=
  s ≠ "" ∧ s.length ≤ 20 ∧ (∀ c ∈ s.data, c.isAlphanum = true ∨ c = '_') ∧
    (∃ c ∈ s.data, c.isAlphanum = true)

/-- Two clients, both members of `#cats`. -/
def stTwo : ServerState :=
  { clients := [(0, ⟨"alice", ["#cats"], 5001⟩), (1, ⟨"bob", ["#cats"], 5002⟩)],
    channels := [("#cats", [0, 1])] }

/-- One client, sole member of `#a`. -/
def stSolo : ServerState :=
  { clients := [(0, ⟨"alice", ["#a"], 5001⟩)], channels := [("#a", [0])] }

/-- Session 0 in both `#x` and `#y`, sharing each with session 1. -/
def stPair : ServerState :=
  { clients := [(0, ⟨"sam", ["#x", "#y"], 5001⟩), (1, ⟨"bob", ["#x", "#y"], 5002⟩)],
    channels := [("#x", [0, 1]), ("#y", [0, 1])] }

/-- One freshly connected client with its default nickname, no channels. -/
def stFresh : ServerState :=
  { clients := [(0, ⟨"user_5001", [], 5001⟩)], channels := [] }

/-! ## Helper lemmas -/

lemma aget_aset_self {α β : Type} [DecidableEq α] {l : List (α × β)} {k : α} {v : β}
    (h : aget l k = some v) : aset l k v = l := by
  induction l with
  | nil => simp [aget] at h
  | cons p rest ih =>
      obtain ⟨k', v'⟩ := p
      by_cases hk : k = k'
      · subst hk
        simp [aget] at h
        simp [aset, h]
      · simp [aget, hk] at h
        simp [aset, hk, ih h]

lemma saddSet_mem {α : Type} [DecidableEq α] {l : List α} {a : α} (h : a ∈ l) :
    saddSet l a = l := by
  simp [saddSet, h]

lemma isFalsy_str_ne {c : String} (h : c ≠ "") : Json.isFalsy (Json.str c) = false := by
  simp [Json.isFalsy, h]

lemma filterMap_no_exclude (l : List Sock) (f : Sock → Ev) :
    (l.filterMap fun s => if (none : Option Sock) = some s then none else some (f s)) =
      l.map f := by
  have h : (fun s => if (none : Option Sock) = some s then none else some (f s)) =
      some ∘ f := by
    funext s
    simp
  rw [h, List.filterMap_eq_map]

lemma ofJson_some {v : Json} {t : MessageType} (h : MessageType.ofJson v = some t) :
    v = .str "command" ∨ v = .str "response" ∨ v = .str "event" := by
  cases v <;> simp only [MessageType.ofJson] at h
  case str s =>
    split_ifs at h with h1 h2 h3
    · exact Or.inl (by rw [h1])
    · exact Or.inr (Or.inl (by rw [h2]))
    · exact Or.inr (Or.inr (by rw [h3]))
  all_goals cases h

lemma dataField_default {kvs : List (String × Json)}
    (hd : jlookup kvs "data" = none ∨ jlookup kvs "data" = some Json.null) :
    dataField kvs = Json.obj [] := by
  rcases hd with hd | hd <;> simp [dataField, hd, Json.isFalsy]

lemma filter_all_alnum_iff (l : List Char) :
    ((l.filter (fun c => c ≠ '_')).all Char.isAlphanum = true) ↔
      (∀ c ∈ l, c.isAlphanum = true ∨ c = '_') := by
  simp only [List.all_eq_true, List.mem_filter, decide_eq_true_eq]
  constructor
  · intro h c hc
    by_cases hu : c = '_'
    · exact Or.inr hu
    · exact Or.inl (h c ⟨hc, hu⟩)
  · rintro h c ⟨hc, hu⟩
    rcases h c hc with ha | ha
    · exact ha
    · exact absurd ha hu

lemma filter_nonempty_alnum_iff (l : List Char) :
    ((l.filter (fun c => c ≠ '_')).isEmpty = false) ↔ ∃ c ∈ l, c ≠ '_' := by
  rw [List.isEmpty_eq_false]
  constructor
  · intro h
    obtain ⟨c, hc⟩ := List.exists_mem_of_ne_nil _ h
    rw [List.mem_filter, decide_eq_true_eq] at hc
    exact ⟨c, hc.1, hc.2⟩
  · rintro ⟨c, hc, hu⟩ hnil
    have : c ∈ l.filter (fun c => c ≠ '_') :=
      List.mem_filter.mpr ⟨hc, by simp [hu]⟩
    rw [hnil] at this
    cases this

/-- The isalnum test on the underscore-free copy of a string says
exactly: every character is alphanumeric or an underscore, and at least
one character is alphanumeric. -/
lemma pyIsAlnum_remove_iff (s : String) :
    pyIsAlnum (removeUnderscores s) = true ↔
      ((∀ c ∈ s.data, c.isAlphanum = true ∨ c = '_') ∧
        ∃ c ∈ s.data, c.isAlphanum = true) := by
  have hdata : (removeUnderscores s).data = s.data.filter (fun c => c ≠ '_') := rfl
  rw [pyIsAlnum, Bool.and_eq_true, Bool.not_eq_true', hdata]
  rw [filter_nonempty_alnum_iff, filter_all_alnum_iff]
  constructor
  · rintro ⟨⟨c, hc, hu⟩, hall⟩
    refine ⟨hall, c, hc, ?_⟩
    rcases hall c hc with ha | ha
    · exact ha
    · exact absurd ha hu
  · rintro ⟨hall, c, hc, ha⟩
    refine ⟨⟨c, hc, ?_⟩, hall⟩
    intro hu
    rw [hu] at ha
    exact absurd ha (by decide)

/-- The validity test of the nick handler, in the vocabulary of the
amended claim. -/
lemma nickInvalid_iff (s : String) :
    (s = "" ∨ s.length > 20 ∨ pyIsAlnum (removeUnderscores s) = false) ↔
      ¬ nickFormatOk s := by
  have hpy := pyIsAlnum_remove_iff s
  constructor
  · rintro (h | h | h) ⟨h1, h2, h3, h4⟩
    · exact h1 h
    · omega
    · rw [Bool.eq_false_iff] at h
      exact h (hpy.mpr ⟨h3, h4⟩)
  · intro h
    by_cases h1 : s = ""
    · exact Or.inl h1
    by_cases h2 : s.length > 20
    · exact Or.inr (Or.inl h2)
    refine Or.inr (Or.inr ?_)
    rw [Bool.eq_false_iff]
    intro hb
    exact h ⟨h1, by omega, (hpy.mp hb).1, (hpy.mp hb).2⟩

/-! ## Claim theorems -/

/-- C1: for every message built by a Message Catalog constructor (any
kind, any string name, any dict payload — the shape every catalog
constructor produces), decoding the encoded wire line yields a message
with identical kind, name, and payload. -/
theorem c1_encode_decode_roundtrip (t : MessageType) (name : String)
    (kvs : List (String × Json)) :
    Protocol.decode (Protocol.encode { type := t, name := .str name, data := .obj kvs }) =
      .ok { type := t, name := .str name, data := .obj kvs } := by
  cases t <;> cases kvs <;> rfl

/-- C2 (counterexample): with alice and bob both members of the cats
channel, a msg command from alice is broadcast with no exclusion — the
very first write delivers the message event back to alice herself,
refuting the claim that the sender does not receive its own message
event. -/
theorem c2_counterexample_sender_receives_own_message :
    handleMsg stTwo 0 [("text", Json.str "hi"), ("channel", Json.str "#cats")] (Json.num 5) =
      .ok stTwo [Ev.send 0 (evtMessage "#cats" "alice" "hi" (Json.num 5)) true,
                 Ev.send 1 (evtMessage "#cats" "alice" "hi" (Json.num 5)) true] ∧
    Ev.send 0 (evtMessage "#cats" "alice" "hi" (Json.num 5)) true ∈
      [Ev.send 0 (evtMessage "#cats" "alice" "hi" (Json.num 5)) true,
       Ev.send 1 (evtMessage "#cats" "alice" "hi" (Json.num 5)) true] :=
  ⟨rfl, List.Mem.head _⟩

/-- C2 (amended): when a member of channel c sends a msg command with a
non-blank text t targeting c, every member of c — the sender included —
receives a message event carrying the channel, the nickname of the
sender as the from field, and the text; registries are unchanged. -/
theorem c2_msg_broadcast_reaches_all_members_including_sender
    (st : ServerState) (sock : Sock) (info : ClientInfo)
    (c t : String) (now : Json) (mem : List Sock)
    (hinfo : aget st.clients sock = some info) (hc : c ∈ info.channels)
    (hmem : aget st.channels c = some mem) (hsock : sock ∈ mem)
    (hcne : c ≠ "") (hts : pyStrip t = t) (ht : t ≠ "") :
    handleMsg st sock [("text", Json.str t), ("channel", Json.str c)] now =
      .ok st (mem.map (fun s => Ev.send s (evtMessage c info.nickname t now) true)) ∧
    Ev.send sock (evtMessage c info.nickname t now) true ∈
      mem.map (fun s => Ev.send s (evtMessage c info.nickname t now) true) := by
  constructor
  · unfold handleMsg
    have hget : getStrD [("text", Json.str t), ("channel", Json.str c)] "text" "" =
        some t := rfl
    rw [hget]
    dsimp only
    rw [hts, if_neg ht, hinfo]
    dsimp only
    have hch : jlookup [("text", Json.str t), ("channel", Json.str c)] "channel" =
        some (Json.str c) := rfl
    rw [hch]
    dsimp only
    rw [isFalsy_str_ne hcne, if_neg Bool.false_ne_true]
    dsimp only
    rw [if_pos hc]
    unfold msgCore broadcastSends
    rw [hmem]
    dsimp only
    rw [filterMap_no_exclude]
  · exact List.mem_map.mpr ⟨sock, hsock, rfl⟩

/-- C2 (witness): the amended theorem applied to the two-member cats
channel. -/
theorem c2_msg_broadcast_witness :
    handleMsg stTwo 0 [("text", Json.str "hi"), ("channel", Json.str "#cats")] (Json.num 7) =
      .ok stTwo (List.map (fun s =>
        Ev.send s (evtMessage "#cats" "alice" "hi" (Json.num 7)) true) [0, 1]) ∧
    Ev.send 0 (evtMessage "#cats" "alice" "hi" (Json.num 7)) true ∈
      List.map (fun s => Ev.send s (evtMessage "#cats" "alice" "hi" (Json.num 7)) true) [0, 1] :=
  c2_msg_broadcast_reaches_all_members_including_sender stTwo 0 ⟨"alice", ["#cats"], 5001⟩
    "#cats" "hi" (Json.num 7) [0, 1] rfl (List.Mem.head _) rfl (List.Mem.head _)
    (by decide) rfl (by decide)

/-- C3 (code bug): disconnecting the sole member of a channel never
completes — inside the registry lock the cleanup discards the socket
from the member set and then calls the broadcast helper, which tries to
re-acquire the same non-reentrant lock and blocks forever; the channel
stays registered with zero members and listChannels would keep
reporting it, violating the no-empty-channel invariant. -/
theorem c3_disconnect_cleanup_leaves_empty_channel_registered :
    disconnectClient stSolo 0 =
      .deadlock { clients := [(0, ⟨"alice", ["#a"], 5001⟩)], channels := [("#a", [])] } [] :=
  rfl

/-- C4 (counterexample): the nickname consisting of a single underscore
is non-empty, within 20 characters, made only of letters, digits and
underscores, and taken by no other session — the claim says the nick
command must succeed — yet the handler rejects it with the invalid
format error, because removing underscores first leaves the empty
string, whose isalnum test is false. -/
theorem c4_counterexample_underscore_nickname_rejected :
    (("_" : String) ≠ "" ∧ ("_" : String).length ≤ 20 ∧
      ∀ c ∈ ("_" : String).data, c.isAlphanum = true ∨ c = '_') ∧
    nickTaken stFresh 0 "_" = false ∧
    handleNick stFresh 0 [("nickname", Json.str "_")] =
      .ok stFresh [Ev.send 0 (respError "nick" "Invalid nickname format") false] :=
  ⟨by decide, rfl, rfl⟩

/-- C4 (amended): the nick command first strips surrounding whitespace
from N; it succeeds and sets the nickname of the session to the
stripped N exactly when the stripped N is non-empty, at most 20
characters, consists only of letters, digits and underscores with at
least one letter or digit, and is the nickname of no other session;
otherwise it fails with the invalid-format or duplicate error and the
session is unchanged.  The unused ASCII hypothesis records the modelling
boundary for isalnum, which Python evaluates over Unicode. -/
theorem c4_nick_validation_amended (st : ServerState) (sock : Sock) (N : String)
    (info : ClientInfo) (hinfo : aget st.clients sock = some info)
    (_hascii : ∀ c ∈ N.data, c.toNat < 128) :
    (¬ nickFormatOk (pyStrip N) →
      handleNick st sock [("nickname", Json.str N)] =
        .ok st [Ev.send sock (respError "nick" "Invalid nickname format") false]) ∧
    (nickFormatOk (pyStrip N) → nickTaken st sock (pyStrip N) = true →
      handleNick st sock [("nickname", Json.str N)] =
        .ok st [Ev.send sock (respError "nick" "Nickname already in use") true]) ∧
    (nickFormatOk (pyStrip N) → nickTaken st sock (pyStrip N) = false →
      handleNick st sock [("nickname", Json.str N)] =
        .ok { st with clients := aset st.clients sock { info with nickname := pyStrip N } }
          [Ev.send sock (respOk "nick" [("nickname", Json.str (pyStrip N))]) false]) := by
  have hget : getStrD [("nickname", Json.str N)] "nickname" "" = some N := rfl
  refine ⟨?_, ?_, ?_⟩
  · intro hbad
    unfold handleNick
    rw [hget]
    dsimp only
    rw [if_pos ((nickInvalid_iff (pyStrip N)).mpr hbad)]
  · intro hok htaken
    unfold handleNick
    rw [hget]
    dsimp only
    rw [if_neg (fun hc => (nickInvalid_iff (pyStrip N)).mp hc hok)]
    rw [htaken]
    rw [if_pos rfl]
  · intro hok htaken
    unfold handleNick
    rw [hget]
    dsimp only
    rw [if_neg (fun hc => (nickInvalid_iff (pyStrip N)).mp hc hok)]
    rw [htaken]
    rw [if_neg Bool.false_ne_true]
    rw [hinfo]

/-- C4 (witness): the amended theorem applied to a fresh session setting
a valid free nickname. -/
theorem c4_nick_validation_witness :
    handleNick stFresh 0 [("nickname", Json.str "bob")] =
      .ok { clients := [(0, ⟨"bob", [], 5001⟩)], channels := [] }
        [Ev.send 0 (respOk "nick" [("nickname", Json.str "bob")]) false] :=
  (c4_nick_validation_amended stFresh 0 "bob" ⟨"user_5001", [], 5001⟩ rfl (by decide)).2.2
    ⟨by decide, by decide, by decide, by decide⟩ rfl

/-- C5 (counterexample): the channel string made of a space followed by
a hash and a letter does not start with a hash, so the claim requires
the join to fail with the registries unchanged — yet the handler strips
the string first, accepts the result, registers the channel and adds
the session to it. -/
theorem c5_counterexample_unstripped_channel_name_joins :
    pyStartsWith " #a" "#" = false ∧
    handleJoin stFresh 0 [("channel", Json.str " #a")] =
      .ok { clients := [(0, ⟨"user_5001", ["#a"], 5001⟩)], channels := [("#a", [0])] }
        [Ev.send 0 (respOk "join" [("channel", Json.str "#a")]) false] :=
  ⟨by decide, rfl⟩

/-- C5 (amended): whenever the channel string, after stripping
surrounding whitespace, is empty, does not start with a hash, or is
shorter than two characters, the join command fails with the invalid
channel name error and both registries are unchanged. -/
theorem c5_join_invalid_channel_amended (st : ServerState) (sock : Sock) (raw : String)
    (h : pyStrip raw = "" ∨ pyStartsWith (pyStrip raw) "#" = false ∨
      (pyStrip raw).length < 2) :
    handleJoin st sock [("channel", Json.str raw)] =
      .ok st [Ev.send sock (respError "join" "Invalid channel name") false] := by
  unfold handleJoin
  have hget : getStrD [("channel", Json.str raw)] "channel" "" = some raw := rfl
  rw [hget]
  dsimp only
  rw [if_pos h]

/-- C5 (witness): the amended theorem applied to a channel name with no
leading hash. -/
theorem c5_join_invalid_channel_witness :
    handleJoin stFresh 0 [("channel", Json.str "bob")] =
      .ok stFresh [Ev.send 0 (respError "join" "Invalid channel name") false] :=
  c5_join_invalid_channel_amended stFresh 0 "bob" (Or.inr (Or.inl (by decide)))

/-- C6 (counterexample): alice is already a member of the cats channel;
her second join succeeds and leaves both registries unchanged, but the
handler still broadcasts a fresh user-joined event to bob — refuting
the no-duplicate-broadcast part of the claim. -/
theorem c6_counterexample_rejoin_rebroadcasts :
    (0, (⟨"alice", ["#cats"], 5001⟩ : ClientInfo)) ∈ stTwo.clients ∧
    handleJoin stTwo 0 [("channel", Json.str "#cats")] =
      .ok stTwo [Ev.send 0 (respOk "join" [("channel", Json.str "#cats")]) false,
                 Ev.send 1 (evtUserJoined "#cats" "alice") true] :=
  ⟨List.Mem.head _, rfl⟩

/-- C6 (amended): a second join of channel c by an existing member
succeeds and leaves the channel registry and the joined-channel set of
the session unchanged, but the user-joined event is broadcast again to
every other member of the channel. -/
theorem c6_rejoin_idempotent_state_amended (st : ServerState) (sock : Sock)
    (info : ClientInfo) (c : String) (mem : List Sock)
    (hinfo : aget st.clients sock = some info) (hc : c ∈ info.channels)
    (hmem : aget st.channels c = some mem) (hsock : sock ∈ mem)
    (hstrip : pyStrip c = c) (hhash : pyStartsWith c "#" = true) (hlen : 2 ≤ c.length) :
    handleJoin st sock [("channel", Json.str c)] =
      .ok st ([Ev.send sock (respOk "join" [("channel", Json.str c)]) false] ++
        broadcastSends st c (evtUserJoined c info.nickname) (some sock)) ∧
    ∀ s ∈ mem, s ≠ sock →
      Ev.send s (evtUserJoined c info.nickname) true ∈
        broadcastSends st c (evtUserJoined c info.nickname) (some sock) := by
  constructor
  · unfold handleJoin
    have hget : getStrD [("channel", Json.str c)] "channel" "" = some c := rfl
    rw [hget]
    dsimp only
    rw [hstrip]
    rw [if_neg ?hcond]
    case hcond =>
      rintro (h | h | h)
      · rw [h] at hlen
        exact absurd hlen (by decide)
      · rw [hhash] at h
        cases h
      · omega
    simp only [hmem, Option.getD_some]
    rw [saddSet_mem hsock, aget_aset_self hmem, hinfo]
    dsimp only
    rw [saddSet_mem hc]
    have heta : ClientInfo.mk info.nickname info.channels info.address = info := rfl
    rw [heta, aget_aset_self hinfo]
  · intro s hs hne
    unfold broadcastSends
    rw [hmem]
    dsimp only
    refine List.mem_filterMap.mpr ⟨s, hs, ?_⟩
    rw [if_neg ?hex]
    case hex =>
      intro h
      injection h with h
      exact hne h.symm

/-- C6 (witness): the amended theorem applied to the rejoin of alice,
with the rebroadcast reaching bob. -/
theorem c6_rejoin_idempotent_state_witness :
    handleJoin stTwo 0 [("channel", Json.str "#cats")] =
      .ok stTwo ([Ev.send 0 (respOk "join" [("channel", Json.str "#cats")]) false] ++
        broadcastSends stTwo "#cats" (evtUserJoined "#cats" "alice") (some 0)) ∧
    Ev.send 1 (evtUserJoined "#cats" "alice") true ∈
      broadcastSends stTwo "#cats" (evtUserJoined "#cats" "alice") (some 0) :=
  have h := c6_rejoin_idempotent_state_amended stTwo 0 ⟨"alice", ["#cats"], 5001⟩
    "#cats" [0, 1] rfl (List.Mem.head _) rfl (List.Mem.head _) rfl (by decide) (by decide)
  ⟨h.1, h.2 1 (by decide) (by decide)⟩

/-- C7 (code bug): disconnecting session 0, a member of two channels
shared with session 1, deadlocks inside the registry lock on the very
first broadcast attempt: no user-left event is ever written, session 0
is never removed from the client registry, and the whole server stalls
because the lock is held forever. -/
theorem c7_disconnect_deadlocks_before_any_user_left :
    disconnectClient stPair 0 =
      .deadlock { clients := [(0, ⟨"sam", ["#x", "#y"], 5001⟩), (1, ⟨"bob", ["#x", "#y"], 5002⟩)],
                  channels := [("#x", [1]), ("#y", [0, 1])] } [] :=
  rfl

/-- C8: decoding a parsed line fails exactly when the line is not a
JSON object whose type field is one of the three message kinds with a
name field present; and when decoding succeeds with the data field
absent or null, the payload of the resulting message is the empty
mapping. -/
theorem c8_decode_failure_iff_and_data_default (raw : Json) :
    ((∃ e, Protocol.decode raw = .error e) ↔ ¬ wireShapeOk raw) ∧
    (∀ m : Message, Protocol.decode raw = .ok m → dataDefaulted raw →
      m.data = .obj []) := by
  cases raw
  case obj kvs =>
    constructor
    · simp only [Protocol.decode, Message.from_dict]
      rcases h1 : jlookup kvs "type" with _ | tv <;> dsimp only
      · constructor
        · rintro - ⟨kvs', hk, hty, -⟩
          injection hk with hk
          subst hk
          rcases hty with h | h | h <;> rw [h1] at h <;> cases h
        · intro _
          exact ⟨_, rfl⟩
      · rcases h2 : MessageType.ofJson tv with _ | t <;> dsimp only
        · constructor
          · rintro - ⟨kvs', hk, hty, -⟩
            injection hk with hk
            subst hk
            rcases hty with h | h | h <;> rw [h1] at h <;> injection h with h <;>
              subst h <;> simp [MessageType.ofJson] at h2
          · intro _
            exact ⟨_, rfl⟩
        · rcases h3 : jlookup kvs "name" with _ | nv <;> dsimp only
          · constructor
            · rintro - ⟨kvs', hk, -, hn⟩
              injection hk with hk
              subst hk
              rw [h3] at hn
              cases hn
            · intro _
              exact ⟨_, rfl⟩
          · constructor
            · rintro ⟨e, he⟩
              cases he
            · intro hbad
              refine absurd ⟨kvs, rfl, ?_, by rw [h3]; rfl⟩ hbad
              rcases ofJson_some h2 with h | h | h <;> rw [h] at h1
              exacts [Or.inl h1, Or.inr (Or.inl h1), Or.inr (Or.inr h1)]
    · intro m hok hd
      simp only [Protocol.decode, Message.from_dict] at hok
      rcases h1 : jlookup kvs "type" with _ | tv <;> rw [h1] at hok <;> dsimp only at hok
      · cases hok
      · rcases h2 : MessageType.ofJson tv with _ | t <;> rw [h2] at hok <;> dsimp only at hok
        · cases hok
        · rcases h3 : jlookup kvs "name" with _ | nv <;> rw [h3] at hok <;> dsimp only at hok
          · cases hok
          · injection hok with h
            subst h
            exact dataField_default (hd kvs rfl)
  all_goals
    constructor
    · constructor
      · rintro - ⟨kvs, hk, -⟩
        cases hk
      · intro _
        exact ⟨_, rfl⟩
    · intro m h
      cases h

/-- C8 (witness): the theorem applied to a command line with no data
field, whose decoded payload is the empty mapping. -/
theorem c8_decode_failure_witness :
    (Message.mk MessageType.command (Json.str "nick") (Json.obj [])).data = Json.obj [] :=
  (c8_decode_failure_iff_and_data_default
      (Json.obj [("type", Json.str "command"), ("name", Json.str "nick")])).2
    ⟨MessageType.command, Json.str "nick", Json.obj []⟩ rfl
    (fun kvs h => by
      injection h with h
      rw [← h]
      exact Or.inl rfl)

/-- C9 (code bug): every socket write performed by the broadcast helper
happens while the registries lock is held — the send loop sits inside
the with-lock block — contradicting the claim that the actual writes
happen outside the lock. -/
theorem c9_broadcast_writes_happen_inside_lock (st : ServerState) (channel : String)
    (m : Message) (exclude : Option Sock) (ev : Ev)
    (h : ev ∈ broadcastSends st channel m exclude) :
    ev.lockHeldOf = true := by
  unfold broadcastSends at h
  rcases hm : aget st.channels channel with _ | mem <;> rw [hm] at h <;> dsimp only at h
  · cases h
  · rw [List.mem_filterMap] at h
    obtain ⟨s, -, hs⟩ := h
    by_cases he : exclude = some s
    · rw [if_pos he] at hs
      cases hs
    · rw [if_neg he] at hs
      injection hs with hs
      rw [← hs]
      rfl

/-- C9 (witness): the theorem applied to a concrete broadcast write on
the two-member cats channel. -/
theorem c9_broadcast_writes_witness :
    (Ev.send 0 (evtUserLeft "#cats" "bob") true).lockHeldOf = true :=
  c9_broadcast_writes_happen_inside_lock stTwo "#cats" (evtUserLeft "#cats" "bob") none
    (Ev.send 0 (evtUserLeft "#cats" "bob") true) (List.Mem.head _)

/-- C10: a msg command whose text field is absent, empty, or
whitespace-only is ignored before the lock is even taken: the handler
returns with no response, no broadcast, and both registries
unchanged. -/
theorem c10_blank_msg_silently_ignored (st : ServerState) (sock : Sock)
    (data : List (String × Json)) (now : Json) (raw : String)
    (h1 : getStrD data "text" "" = some raw) (h2 : pyStrip raw = "") :
    handleMsg st sock data now = .ok st [] := by
  unfold handleMsg
  rw [h1]
  dsimp only
  rw [h2]
  rfl

/-- C10 (witness): the theorem applied to a whitespace-only text on a
fresh session. -/
theorem c10_blank_msg_witness :
    handleMsg stFresh 0 [("text", Json.str "   ")] Json.null = .ok stFresh [] :=
  c10_blank_msg_silently_ignored stFresh 0 [("text", Json.str "   ")] Json.null "   " rfl rfl
